import Mathlib

/-!
Verification development for the docker-proxy entry point
(packages/docker-proxy/main.ts) of the preevy repository.

The TypeScript source is shallowly embedded below: environment access is
modelled as a record of optional string variables, the process's observable
behaviour (connection checks, stdout writes, exits, client creation) as an
explicit action trace, and fallible configuration parsing as Except.
Components whose implementation lives in modules not present in this
snapshot (the ssh connection checker, the ssh client with its reconnect
loop, requiredEnv, parseSshUrl) are modelled from the specification; each
such definition carries a doc comment saying so.
-/

/-- JavaScript truthiness of an environment variable: `Boolean(v)` on a
string environment variable is `true` exactly when the variable is set to a
non-empty string (main.ts line 30 uses this for INSECURE_SKIP_VERIFY). -/
def truthy : Option String → Bool
  | none => false
  | some s => s ≠ ""

/-- The process environment and argument vector as read by main.ts:
each field models one `process.env.*` access; `defaultKeyFile` models the
result of `fs.readFileSync(HOME/.ssh/id_rsa)` (`none` = file unreadable,
which in the source raises). -/
structure ProcEnv where
  sshUrl : Option String
  sshPrivateKey : Option String
  user : Option String
  sshServerPublicKey : Option String
  insecureSkipVerify : Option String
  tlsServerName : Option String
  sshCheckOnly : Option String
  defaultKeyFile : Option String
  argv : List String
deriving Repr, DecidableEq

/-- Configuration errors: the startup failures of sshConnectionConfigFromEnv. -/
inductive ConfigError where
  | missingEnv (name : String)
  | unparseableUrl (url : String)
  | keyFileUnreadable
deriving Repr, DecidableEq

/-- Modelled from the spec: `requiredEnv` (imported from ./src/env, not part
of this snapshot) returns the value of a required environment variable and
fails fatally when the variable is missing ("missing/malformed connection
target ... fatal at startup"). -/
def requiredEnv (name : String) (v : Option String) : Except ConfigError String :=
  match v with
  | some s => Except.ok s
  | none => Except.error (ConfigError.missingEnv name)

/-- The host/port part of a parsed ssh url. -/
structure ParsedSshUrl where
  host : String
  port : Nat
  isTls : Bool
deriving Repr, DecidableEq

/-- Split a character list on a separator character (structural recursion so
that concrete instances reduce in the kernel). -/
def splitOnChar (c : Char) : List Char → List (List Char)
  | [] => [[]]
  | x :: xs =>
    match splitOnChar c xs with
    | [] => if x = c then [[], []] else [[x]]
    | r :: rs => if x = c then [] :: r :: rs else (x :: r) :: rs

/-- Decimal digit test. -/
def isDigitChar (c : Char) : Bool := '0' ≤ c && c ≤ '9'

/-- Decimal value of a digit list. -/
def natOfDigits (l : List Char) : Nat :=
  l.foldl (fun acc c => 10 * acc + (c.toNat - '0'.toNat)) 0

/-- Modelled from the spec: `parseSshUrl` (imported from ./src/ssh, not part
of this snapshot) parses a connection target of the shape
ssh://host:port or ssh+tls://host:port into host, port and transport kind,
and fails fatally on a malformed target. -/
def parseSshUrl (url : String) : Except ConfigError ParsedSshUrl :=
  match splitOnChar ':' url.data with
  | [scheme, hostPart, portPart] =>
    if scheme = "ssh".data ∨ scheme = "ssh+tls".data then
      match hostPart with
      | '/' :: '/' :: host =>
        if host ≠ [] ∧ portPart ≠ [] ∧ portPart.all isDigitChar then
          Except.ok ⟨String.mk host, natOfDigits portPart, scheme = "ssh+tls".data⟩
        else Except.error (ConfigError.unparseableUrl url)
      | _ => Except.error (ConfigError.unparseableUrl url)
    else Except.error (ConfigError.unparseableUrl url)
  | _ => Except.error (ConfigError.unparseableUrl url)

/-- SshConnectionConfig as assembled by sshConnectionConfigFromEnv
(main.ts lines 23 to 33). -/
structure SshConnectionConfig where
  host : String
  port : Nat
  isTls : Bool
  username : String
  clientPrivateKey : String
  knownServerPublicKeys : List String
  insecureSkipVerify : Bool
  tlsServerName : Option String
deriving Repr, DecidableEq

/-- main.ts line 18: `process.env.SSH_PRIVATE_KEY || fs.readFileSync(...)`,
a truthiness test on the variable, falling back to the default key file and
failing when that file is unreadable. -/
def clientPrivateKeyFromEnv (env : ProcEnv) : Except ConfigError String :=
  match env.sshPrivateKey with
  | some s =>
    if s ≠ "" then Except.ok s
    else match env.defaultKeyFile with
      | some contents => Except.ok contents
      | none => Except.error ConfigError.keyFileUnreadable
  | none =>
    match env.defaultKeyFile with
    | some contents => Except.ok contents
    | none => Except.error ConfigError.keyFileUnreadable

/-- main.ts line 29: `[process.env.SSH_SERVER_PUBLIC_KEY].filter(Boolean)`. -/
def knownServerPublicKeysFromEnv (v : Option String) : List String :=
  match v with
  | some s => if s = "" then [] else [s]
  | none => []

/-- main.ts line 31: `process.env.TLS_SERVERNAME || undefined`. -/
def tlsServerNameFromEnv (v : Option String) : Option String :=
  match v with
  | some s => if s = "" then none else some s
  | none => none

/-- Embedding of sshConnectionConfigFromEnv (main.ts lines 15 to 34):
reads SSH_URL (required), parses it, obtains the client private key from
SSH_PRIVATE_KEY or the default key file, and assembles the connection
config; any failure is a startup ConfigError. -/
def sshConnectionConfigFromEnv (env : ProcEnv) :
    Except ConfigError (SshConnectionConfig × String) := do
  let sshUrl ← requiredEnv "SSH_URL" env.sshUrl
  let parsed ← parseSshUrl sshUrl
  let clientPrivateKey ← clientPrivateKeyFromEnv env
  Except.ok
    ({ host := parsed.host
       port := parsed.port
       isTls := parsed.isTls
       clientPrivateKey := clientPrivateKey
       username := env.user.getD "foo"
       knownServerPublicKeys := knownServerPublicKeysFromEnv env.sshServerPublicKey
       insecureSkipVerify := truthy env.insecureSkipVerify
       tlsServerName := tlsServerNameFromEnv env.tlsServerName }, sshUrl)

/-- The error value carried by the Error variant of a connection check:
message, a toString rendering (used when message is falsy), and an optional
stack, mirroring the fields main.ts reads off a JavaScript Error. -/
structure ErrInfo where
  message : String
  str : String
  stack : Option String
deriving Repr, DecidableEq

/-- ConnectionCheckResult as consumed by main.ts: the source inspects the
result structurally with membership tests for the unverifiedHostKey and
error fields, so the embedding is a record of two optional fields; the Ok
variant has both absent. -/
structure ConnectionCheckResult where
  unverifiedHostKey : Option String := none
  error : Option ErrInfo := none
deriving Repr, DecidableEq

/-- The Ok variant: handshake and verification succeeded. -/
def okCheckResult : ConnectionCheckResult := {}

/-- The UnverifiedHostKey variant carrying the presented key. -/
def unverifiedCheckResult (k : String) : ConnectionCheckResult :=
  { unverifiedHostKey := some k }

/-- The Error variant carrying the failure. -/
def errorCheckResult (e : ErrInfo) : ConnectionCheckResult :=
  { error := some e }

/-- The object shape returned by formatConnectionCheckResult. -/
inductive FormattedCheckResult where
  | unverifiedHostKey (formattedKey : String)
  | errorPayload (message : String) (stack : Option String) (details : String)
  | okPayload
deriving Repr, DecidableEq

/-- Embedding of formatConnectionCheckResult (main.ts lines 36 to 46),
parametric in formatPublicKey (fmt, from the absent ./src/ssh module) and in
the node inspect rendering (ins): the unverifiedHostKey field is tested
first, then the error field, and otherwise the result is returned as is
(the empty Ok payload). -/
def formatConnectionCheckResult (fmt : String → String) (ins : ErrInfo → String)
    (r : ConnectionCheckResult) : FormattedCheckResult :=
  match r.unverifiedHostKey with
  | some k => FormattedCheckResult.unverifiedHostKey (fmt k)
  | none =>
    match r.error with
    | some e =>
      FormattedCheckResult.errorPayload
        (if e.message = "" then e.str else e.message) e.stack (ins e)
    | none => FormattedCheckResult.okPayload

/-- Modelled from the spec: the host-key verification policy of the
Connection Checker (checkConnection lives in ./src/ssh/connection-checker,
not part of this snapshot): the check succeeds when the presented server key
matches any pinned key, succeeds when the pinned set is empty and
insecure-skip-verify is set, and otherwise reports UnverifiedHostKey with
the presented key. -/
def checkConnectionHostKey (cfg : SshConnectionConfig) (presented : String) :
    ConnectionCheckResult :=
  if cfg.knownServerPublicKeys.contains presented then okCheckResult
  else if cfg.knownServerPublicKeys.isEmpty && cfg.insecureSkipVerify then okCheckResult
  else unverifiedCheckResult presented

/-- Literal opening brace of a JSON document. -/
def jsonOpen : String := "\x7b"

/-- Literal closing brace of a JSON document. -/
def jsonClose : String := "\x7d"

/-- JSON string escaping of one character (quote, backslash, newline). -/
def jsonEscapeChar (c : Char) : String :=
  if c = '"' then "\\\""
  else if c = '\\' then "\\\\"
  else if c = '\n' then "\\n"
  else String.mk [c]

/-- JSON string escaping. -/
def jsonEscape (s : String) : String :=
  String.join (s.data.map jsonEscapeChar)

/-- A JSON string literal. -/
def jsonStr (s : String) : String := "\"" ++ jsonEscape s ++ "\""

/-- JSON.stringify of the formatted connection check result: the
UnverifiedHostKey payload has the formatted key as its only field, the
Error payload carries error, stack (dropped when absent, as JSON.stringify
drops undefined fields) and details, and the Ok payload is the empty
object. -/
def serializeFormatted : FormattedCheckResult → String
  | FormattedCheckResult.unverifiedHostKey k =>
    jsonOpen ++ jsonStr "unverifiedHostKey" ++ ":" ++ jsonStr k ++ jsonClose
  | FormattedCheckResult.errorPayload m st d =>
    jsonOpen ++ jsonStr "error" ++ ":" ++ jsonStr m ++ "," ++
      (match st with
       | some s => jsonStr "stack" ++ ":" ++ jsonStr s ++ ","
       | none => "") ++
      jsonStr "details" ++ ":" ++ jsonStr d ++ jsonClose
  | FormattedCheckResult.okPayload => jsonOpen ++ jsonClose

/-- The platform end-of-line written after each stdout document. -/
def eol : String := "\n"

/-- Observable actions of the main entry point, in program order:
the debug log of the config, the one-shot connection check, stdout writes,
and the creation of the docker client, the persistent ssh client, the
container listener and the web server of steady-state mode. -/
inductive MainAction where
  | logDebugConfig
  | runConnectionCheck
  | stdoutWrite (s : String)
  | createDockerClient
  | createSshClient
  | listenToContainers
  | startWebServer
deriving Repr, DecidableEq

/-- How the modelled main run ends: an explicit process.exit, a fatal
configuration error thrown out of main (non-zero process exit), or still
running (steady-state mode serving). -/
inductive ExitOutcome where
  | exited (code : Nat)
  | configFailure
  | running
deriving Repr, DecidableEq

/-- main.ts line 61: check-only mode is selected when SSH_CHECK_ONLY is
truthy or the argument vector contains the word check. -/
def checkOnlyMode (env : ProcEnv) : Bool :=
  truthy env.sshCheckOnly || env.argv.contains "check"

/-- Embedding of main (main.ts lines 48 to 110) as an action trace and exit
outcome, parametric in formatPublicKey (fmt), the node inspect rendering
(ins), the ConnectionCheckResult the environment would produce for a check
(checkResult), and whether the initial persistent ssh connection succeeds
(initialConnOk). Configuration is parsed first; a ConfigError aborts before
any action. In check-only mode main runs one check, writes the formatted
JSON document and a newline to stdout and exits 0. Otherwise it creates the
docker client then the ssh client; an initial connection failure exits 1
(the onError handler in main.ts lines 78 to 81), and on success main
listens to containers and starts the web server. -/
def mainModel (env : ProcEnv) (fmt : String → String) (ins : ErrInfo → String)
    (checkResult : ConnectionCheckResult) (initialConnOk : Bool) :
    List MainAction × ExitOutcome :=
  match sshConnectionConfigFromEnv env with
  | Except.error _ => ([], ExitOutcome.configFailure)
  | Except.ok _ =>
    if checkOnlyMode env then
      ([MainAction.logDebugConfig,
        MainAction.runConnectionCheck,
        MainAction.stdoutWrite
          (serializeFormatted (formatConnectionCheckResult fmt ins checkResult)),
        MainAction.stdoutWrite eol],
       ExitOutcome.exited 0)
    else if initialConnOk then
      ([MainAction.logDebugConfig,
        MainAction.createDockerClient,
        MainAction.createSshClient,
        MainAction.listenToContainers,
        MainAction.startWebServer],
       ExitOutcome.running)
    else
      ([MainAction.logDebugConfig,
        MainAction.createDockerClient,
        MainAction.createSshClient],
       ExitOutcome.exited 1)

/-- The stdout documents of a trace, in order. -/
def stdoutWrites : List MainAction → List String
  | [] => []
  | MainAction.stdoutWrite s :: rest => s :: stdoutWrites rest
  | _ :: rest => stdoutWrites rest

/-- Tunnel lifecycle states of the published state JSON. -/
inductive TunnelLifecycle where
  | pending
  | active
  | failed
deriving Repr, DecidableEq

/-- One tunnel entry of an SshState snapshot. -/
structure TunnelStatus where
  lifecycle : TunnelLifecycle
  errorText : Option String
deriving Repr, DecidableEq

/-- An SshState snapshot: a mapping from tunnel identifier to status,
embedded as an association list. -/
abbrev SshState := List (String × TunnelStatus)

/-- JSON rendering of one tunnel status object. -/
def serializeTunnelStatus (t : TunnelStatus) : String :=
  jsonOpen ++ jsonStr "state" ++ ":" ++
    (match t.lifecycle with
     | TunnelLifecycle.pending => jsonStr "pending"
     | TunnelLifecycle.active => jsonStr "active"
     | TunnelLifecycle.failed => jsonStr "failed") ++
    (match t.errorText with
     | some e => "," ++ jsonStr "error" ++ ":" ++ jsonStr e
     | none => "") ++ jsonClose

/-- JSON.stringify of an SshState snapshot: one object mapping each tunnel
identifier to its status object. -/
def serializeSshState (s : SshState) : String :=
  jsonOpen ++
    String.intercalate ","
      (s.map (fun e => jsonStr e.1 ++ ":" ++ serializeTunnelStatus e.2)) ++
    jsonClose

/-- The mutable state of the steady-state loop in main.ts lines 86 to 97:
the `state` variable (unassigned before the first onChange) and whether
initPromise has resolved. -/
structure SteadyLoopState where
  state : Option SshState
  initResolved : Bool
deriving Repr, DecidableEq

/-- Before any reconciliation cycle: `state` unassigned, initPromise
pending. -/
def initialLoopState : SteadyLoopState := ⟨none, false⟩

/-- One onChange delivery (main.ts lines 90 to 95): updateTunnels yields the
new SshState, which is stored in `state`, and resolve fires (idempotently). -/
def onChangeStep (s : SteadyLoopState) (published : SshState) : SteadyLoopState :=
  { s with state := some published, initResolved := true }

/-- The loop state after a sequence of completed reconciliation cycles,
each identified by the SshState it published. -/
def runCycles (cycles : List SshState) : SteadyLoopState :=
  cycles.foldl onChangeStep initialLoopState

/-- Embedding of the getSshState accessor handed to the web server
(main.ts line 100): `initPromise.then(() => state)` yields no value while
initPromise is unresolved and the current `state` once it has resolved. -/
def getSshState (s : SteadyLoopState) : Option SshState :=
  if s.initResolved then s.state else none

/-- The stdout writes of one onChange cycle (main.ts lines 92 to 93): the
serialized new state followed by a newline. -/
def cycleOutput (published : SshState) : List String :=
  [serializeSshState published, eol]

/-- Stdout writes of the steady-state loop, cycle by cycle. -/
def steadyOutputs (cycles : List SshState) : List (List String) :=
  cycles.map cycleOutput

/-- Whether the snapshot published by cycle i differs from the one published
by the previous cycle (the first cycle always counts as a change). -/
def differsFromPrev (cycles : List SshState) (i : Nat) : Bool :=
  match i, cycles.get? i with
  | _, none => false
  | 0, some _ => true
  | j + 1, some s => cycles.get? j ≠ some s

/-- Events seen by the persistent ssh client after a successful initial
connection. -/
inductive ConnEvent where
  | disconnect
  | reconnected
deriving Repr, DecidableEq

/-- State of the modelled reconnect loop: whether the session is up, the
current backoff delay, how many reconnection attempts have been started,
and the exit the loop has requested of the process (never set). -/
structure ReconnectState where
  connected : Bool
  currentDelay : Nat
  attempts : Nat
  exited : Option Nat
deriving Repr, DecidableEq

/-- Modelled from the spec: the reconnect behaviour of the ssh client
(createSshClient lives in ./src/ssh, not part of this snapshot): after a
successful initial connection, an unexpected disconnect starts a
reconnection attempt whose delay grows exponentially, bounded by maxDelay,
and a successful reconnection resets the delay; no event terminates the
process. -/
def reconnectStep (baseDelay maxDelay : Nat) (s : ReconnectState) :
    ConnEvent → ReconnectState
  | ConnEvent.disconnect =>
    { s with connected := false
             attempts := s.attempts + 1
             currentDelay := min (2 * s.currentDelay) maxDelay }
  | ConnEvent.reconnected =>
    { s with connected := true, currentDelay := baseDelay }

/-- The reconnect loop state after a sequence of events, starting connected
with the base delay. -/
def runReconnect (baseDelay maxDelay : Nat) (events : List ConnEvent) :
    ReconnectState :=
  events.foldl (reconnectStep baseDelay maxDelay)
    ⟨true, baseDelay, 0, none⟩

/-- The object logged at debug level at startup (main.ts lines 55 to 59):
the connection config spread, with clientPrivateKey overwritten by a
constant redaction marker and a derived clientPublicKey added. -/
structure LoggedSshConfig where
  host : String
  port : Nat
  isTls : Bool
  username : String
  clientPrivateKey : String
  clientPublicKey : String
  knownServerPublicKeys : List String
  insecureSkipVerify : Bool
  tlsServerName : Option String
deriving Repr, DecidableEq

/-- Embedding of the logged config object, parametric in formatPublicKey. -/
def loggedSshConfig (fmt : String → String) (cfg : SshConnectionConfig) :
    LoggedSshConfig :=
  { host := cfg.host
    port := cfg.port
    isTls := cfg.isTls
    username := cfg.username
    clientPrivateKey := "*** REDACTED ***"
    clientPublicKey := fmt cfg.clientPrivateKey
    knownServerPublicKeys := cfg.knownServerPublicKeys
    insecureSkipVerify := cfg.insecureSkipVerify
    tlsServerName := cfg.tlsServerName }

/-- Sample environment selecting check-only mode with a wellformed
configuration. -/
def sampleEnvCheck : ProcEnv :=
  { sshUrl := some "ssh://h:22"
    sshPrivateKey := some "PRIV"
    user := none
    sshServerPublicKey := some "K"
    insecureSkipVerify := some "false"
    tlsServerName := none
    sshCheckOnly := some "1"
    defaultKeyFile := none
    argv := [] }

/-- Sample environment selecting steady-state mode with a wellformed
configuration. -/
def sampleEnvSteady : ProcEnv :=
  { sampleEnvCheck with sshCheckOnly := none }

/-- The connection config assembled from either sample environment. -/
def sampleConfig : SshConnectionConfig :=
  { host := "h"
    port := 22
    isTls := false
    username := "foo"
    clientPrivateKey := "PRIV"
    knownServerPublicKeys := ["K"]
    insecureSkipVerify := true
    tlsServerName := none }

/-- Claim C1: host-key verification policy of the Connection Checker — a
presented key in the pinned set yields Ok; an empty pinned set with
insecure-skip-verify set yields Ok; otherwise the result is
UnverifiedHostKey carrying the presented key; in particular, with pinned
set containing exactly one key and the server presenting a different key
while insecure-skip-verify is off, the result is UnverifiedHostKey of the
presented key. -/
theorem checkConnection_hostKeyPolicy (cfg : SshConnectionConfig) (k : String) :
    (cfg.knownServerPublicKeys.contains k = true →
      checkConnectionHostKey cfg k = okCheckResult)
    ∧ (cfg.knownServerPublicKeys = [] → cfg.insecureSkipVerify = true →
      checkConnectionHostKey cfg k = okCheckResult)
    ∧ (cfg.knownServerPublicKeys.contains k = false →
      ¬(cfg.knownServerPublicKeys = [] ∧ cfg.insecureSkipVerify = true) →
      checkConnectionHostKey cfg k = unverifiedCheckResult k)
    ∧ (∀ k0, cfg.knownServerPublicKeys = [k0] → k ≠ k0 →
      cfg.insecureSkipVerify = false →
      checkConnectionHostKey cfg k = unverifiedCheckResult k) := by
  refine ⟨?_, ?_, ?_, ?_⟩
  · intro h
    unfold checkConnectionHostKey
    rw [if_pos h]
  · intro h1 h2
    have h1' : ¬(cfg.knownServerPublicKeys.contains k = true) := by simp [h1]
    have h2' : (cfg.knownServerPublicKeys.isEmpty && cfg.insecureSkipVerify) = true := by
      simp [h1, h2]
    unfold checkConnectionHostKey
    rw [if_neg h1', if_pos h2']
  · intro h1 h2
    have h1' : ¬(cfg.knownServerPublicKeys.contains k = true) := by
      rw [h1]
      simp
    have h2' : ¬((cfg.knownServerPublicKeys.isEmpty && cfg.insecureSkipVerify) = true) := by
      intro hcond
      rw [Bool.and_eq_true] at hcond
      exact h2 ⟨List.isEmpty_iff.mp hcond.1, hcond.2⟩
    unfold checkConnectionHostKey
    rw [if_neg h1', if_neg h2']
  · intro k0 hks hne hskip
    have h1' : ¬(cfg.knownServerPublicKeys.contains k = true) := by
      simp [hks]
      exact hne
    have h2' : ¬((cfg.knownServerPublicKeys.isEmpty && cfg.insecureSkipVerify) = true) := by
      simp [hks, hskip]
    unfold checkConnectionHostKey
    rw [if_neg h1', if_neg h2']

/-- Witness for C1 at concrete inputs: pinned set with exactly the key K,
server presenting K2, insecure-skip-verify off. -/
theorem checkConnection_hostKeyPolicy_witness :
    checkConnectionHostKey
      ⟨"h", 22, false, "u", "p", ["K"], false, none⟩ "K2" =
      unverifiedCheckResult "K2"
    ∧ checkConnectionHostKey
      ⟨"h", 22, false, "u", "p", ["K"], false, none⟩ "K" = okCheckResult
    ∧ checkConnectionHostKey
      ⟨"h", 22, false, "u", "p", [], true, none⟩ "ANY" = okCheckResult :=
  ⟨(checkConnection_hostKeyPolicy _ "K2").2.2.2 "K" rfl (by decide) rfl,
   (checkConnection_hostKeyPolicy _ "K").1 (by decide),
   (checkConnection_hostKeyPolicy _ "ANY").2.1 rfl rfl⟩

/-- Claim C3: the formatted check result is determined by which variant is
populated — an unverifiedHostKey field yields an object whose only field is
the formatted public key (taking precedence over error formatting), an
error field yields the message, stack and details payload, and neither
field yields the empty Ok payload. -/
theorem formatCheckResult_byVariant (fmt : String → String)
    (ins : ErrInfo → String) (r : ConnectionCheckResult) :
    (∀ k, r.unverifiedHostKey = some k →
      formatConnectionCheckResult fmt ins r =
        FormattedCheckResult.unverifiedHostKey (fmt k))
    ∧ (r.unverifiedHostKey = none → ∀ e, r.error = some e →
      formatConnectionCheckResult fmt ins r =
        FormattedCheckResult.errorPayload
          (if e.message = "" then e.str else e.message) e.stack (ins e))
    ∧ (r.unverifiedHostKey = none → r.error = none →
      formatConnectionCheckResult fmt ins r = FormattedCheckResult.okPayload) := by
  refine ⟨?_, ?_, ?_⟩
  · intro k hk
    simp [formatConnectionCheckResult, hk]
  · intro hk e he
    simp [formatConnectionCheckResult, hk, he]
  · intro hk he
    simp [formatConnectionCheckResult, hk, he]

/-- Witness for C3 at concrete inputs, including the precedence case where
both the unverifiedHostKey and error fields are populated. -/
theorem formatCheckResult_byVariant_witness :
    formatConnectionCheckResult id (fun e => e.str)
      ⟨some "K", some ⟨"m", "s", none⟩⟩ =
      FormattedCheckResult.unverifiedHostKey "K"
    ∧ formatConnectionCheckResult id (fun e => e.str)
      ⟨none, some ⟨"", "Error: x", some "st"⟩⟩ =
      FormattedCheckResult.errorPayload "Error: x" (some "st") "Error: x"
    ∧ formatConnectionCheckResult id (fun e => e.str) okCheckResult =
      FormattedCheckResult.okPayload :=
  ⟨(formatCheckResult_byVariant id (fun e => e.str) _).1 "K" rfl,
   (formatCheckResult_byVariant id (fun e => e.str) _).2.1 rfl ⟨"", "Error: x", some "st"⟩ rfl,
   (formatCheckResult_byVariant id (fun e => e.str) okCheckResult).2.2 rfl rfl⟩

/-- Claim C10: the startup debug log redacts the client private key — the
clientPrivateKey field of the logged object is the constant redaction
marker for every configuration and every formatPublicKey, so two runs
differing in private key value log the same clientPrivateKey field; only
the derived public key appears, under the separate clientPublicKey field. -/
theorem loggedConfig_redactsPrivateKey (fmt : String → String)
    (c1 c2 : SshConnectionConfig) :
    (loggedSshConfig fmt c1).clientPrivateKey = "*** REDACTED ***"
    ∧ (loggedSshConfig fmt c1).clientPrivateKey =
        (loggedSshConfig fmt c2).clientPrivateKey
    ∧ (loggedSshConfig fmt c1).clientPublicKey = fmt c1.clientPrivateKey :=
  ⟨rfl, rfl, rfl⟩

/-- Number of occurrences of an action in a trace. -/
def countAction (a : MainAction) : List MainAction → Nat
  | [] => 0
  | x :: xs => (if x = a then 1 else 0) + countAction a xs

/-- Claim C2: in check-only mode with a wellformed configuration, main
performs exactly one connection check, writes exactly one JSON document
(the formatted check result) followed by a newline to stdout, never creates
the docker client, the persistent ssh client or the container listener, and
exits 0 for every ConnectionCheckResult; a non-zero outcome happens only
when the configuration itself is malformed, in which case no check is
attempted. -/
theorem checkOnlyMode_behaviour (env : ProcEnv) (fmt : String → String)
    (ins : ErrInfo → String) (r : ConnectionCheckResult) (iok : Bool)
    (h : checkOnlyMode env = true) :
    ((sshConnectionConfigFromEnv env).isOk = true →
      (mainModel env fmt ins r iok).2 = ExitOutcome.exited 0
      ∧ stdoutWrites (mainModel env fmt ins r iok).1 =
          [serializeFormatted (formatConnectionCheckResult fmt ins r), eol]
      ∧ countAction MainAction.runConnectionCheck (mainModel env fmt ins r iok).1 = 1
      ∧ MainAction.createDockerClient ∉ (mainModel env fmt ins r iok).1
      ∧ MainAction.createSshClient ∉ (mainModel env fmt ins r iok).1
      ∧ MainAction.listenToContainers ∉ (mainModel env fmt ins r iok).1)
    ∧ ((sshConnectionConfigFromEnv env).isOk = false →
      mainModel env fmt ins r iok = ([], ExitOutcome.configFailure)) := by
  cases hc : sshConnectionConfigFromEnv env with
  | error e =>
    refine ⟨fun hok => ?_, fun _ => ?_⟩
    · simp [Except.isOk, Except.toBool] at hok
    · simp [mainModel, hc]
  | ok v =>
    refine ⟨fun _ => ?_, fun hok => ?_⟩
    · simp [mainModel, hc, h, stdoutWrites, countAction]
    · simp [Except.isOk, Except.toBool] at hok

/-- Witness for C2 at a concrete check-only environment and each result
variant. -/
theorem checkOnlyMode_behaviour_witness :
    (mainModel sampleEnvCheck id (fun e => e.str) okCheckResult true).2 =
      ExitOutcome.exited 0
    ∧ (mainModel sampleEnvCheck id (fun e => e.str)
        (unverifiedCheckResult "K2") false).2 = ExitOutcome.exited 0
    ∧ (mainModel sampleEnvCheck id (fun e => e.str)
        (errorCheckResult ⟨"boom", "Error: boom", none⟩) true).2 =
      ExitOutcome.exited 0
    ∧ MainAction.createSshClient ∉
        (mainModel sampleEnvCheck id (fun e => e.str) okCheckResult true).1 :=
  ⟨((checkOnlyMode_behaviour sampleEnvCheck id (fun e => e.str) okCheckResult
      true rfl).1 rfl).1,
   ((checkOnlyMode_behaviour sampleEnvCheck id (fun e => e.str)
      (unverifiedCheckResult "K2") false rfl).1 rfl).1,
   ((checkOnlyMode_behaviour sampleEnvCheck id (fun e => e.str)
      (errorCheckResult ⟨"boom", "Error: boom", none⟩) true rfl).1 rfl).1,
   ((checkOnlyMode_behaviour sampleEnvCheck id (fun e => e.str) okCheckResult
      true rfl).1 rfl).2.2.2.2.1⟩

/-- Claim C6: when the configuration is missing or malformed — SSH_URL
unset, SSH_URL unparseable, or no client private key obtainable
(SSH_PRIVATE_KEY unset or empty and the default key file unreadable) — main
fails at startup with a configuration failure and performs no action at
all: in particular no connection check and no ssh client creation. -/
theorem configError_failsBeforeConnection (env : ProcEnv)
    (fmt : String → String) (ins : ErrInfo → String)
    (r : ConnectionCheckResult) (iok : Bool)
    (h : env.sshUrl = none
      ∨ (∃ u, env.sshUrl = some u ∧ (parseSshUrl u).isOk = false)
      ∨ ((env.sshPrivateKey = none ∨ env.sshPrivateKey = some "")
          ∧ env.defaultKeyFile = none)) :
    mainModel env fmt ins r iok = ([], ExitOutcome.configFailure)
    ∧ MainAction.runConnectionCheck ∉ (mainModel env fmt ins r iok).1
    ∧ MainAction.createSshClient ∉ (mainModel env fmt ins r iok).1 := by
  have herr : ∃ e, sshConnectionConfigFromEnv env = Except.error e := by
    rcases h with h1 | ⟨u, hu, hp⟩ | ⟨hk, hf⟩
    · exact ⟨ConfigError.missingEnv "SSH_URL",
        by simp [sshConnectionConfigFromEnv, requiredEnv, h1, Bind.bind, Except.bind]⟩
    · cases hpe : parseSshUrl u with
      | error e =>
        exact ⟨e, by simp [sshConnectionConfigFromEnv, requiredEnv, hu, hpe, Bind.bind, Except.bind]⟩
      | ok p =>
        rw [hpe] at hp
        simp [Except.isOk, Except.toBool] at hp
    · have hkey : clientPrivateKeyFromEnv env = Except.error ConfigError.keyFileUnreadable := by
        rcases hk with hk | hk <;> simp [clientPrivateKeyFromEnv, hk, hf]
      cases hurl : env.sshUrl with
      | none =>
        exact ⟨ConfigError.missingEnv "SSH_URL",
          by simp [sshConnectionConfigFromEnv, requiredEnv, hurl, Bind.bind, Except.bind]⟩
      | some u =>
        cases hpe : parseSshUrl u with
        | error e =>
          exact ⟨e, by simp [sshConnectionConfigFromEnv, requiredEnv, hurl, hpe, Bind.bind, Except.bind]⟩
        | ok p =>
          exact ⟨ConfigError.keyFileUnreadable,
            by simp [sshConnectionConfigFromEnv, requiredEnv, hurl, hpe, hkey, Bind.bind, Except.bind]⟩
  obtain ⟨e, he⟩ := herr
  refine ⟨by simp [mainModel, he], ?_, ?_⟩ <;> simp [mainModel, he]

/-- Witness for C6: SSH_URL unset. -/
theorem configError_failsBeforeConnection_witness :
    mainModel { sampleEnvCheck with sshUrl := none } id (fun e => e.str)
      okCheckResult true = ([], ExitOutcome.configFailure) :=
  (configError_failsBeforeConnection { sampleEnvCheck with sshUrl := none }
    id (fun e => e.str) okCheckResult true (Or.inl rfl)).1

/-- After a nonempty sequence of reconciliation cycles the loop state holds
the last published snapshot and the init promise is resolved, whatever the
starting state. -/
theorem foldl_onChangeStep_nonempty (cycles : List SshState)
    (s0 : SteadyLoopState) (h : cycles ≠ []) :
    cycles.foldl onChangeStep s0 = ⟨some (cycles.getLast h), true⟩ := by
  induction cycles generalizing s0 with
  | nil => exact absurd rfl h
  | cons a l ih =>
    cases l with
    | nil => simp [onChangeStep]
    | cons b m =>
      have hne : b :: m ≠ [] := by simp
      rw [List.foldl_cons, ih _ hne]
      rfl

/-- Claim C4: the read accessor handed to the Status Publisher yields no
SshState before the first reconciliation cycle has completed, and once at
least one cycle has completed it yields exactly the most recently published
snapshot. -/
theorem getSshState_availability (cycles : List SshState) :
    (cycles = [] → getSshState (runCycles cycles) = none)
    ∧ (∀ h : cycles ≠ [],
        getSshState (runCycles cycles) = some (cycles.getLast h)) := by
  constructor
  · intro h
    subst h
    rfl
  · intro h
    rw [runCycles, foldl_onChangeStep_nonempty cycles initialLoopState h]
    rfl

/-- Witness for C4: no snapshot before the first cycle; the latest of two
published snapshots afterwards. -/
theorem getSshState_availability_witness :
    getSshState (runCycles ([] : List SshState)) = none
    ∧ getSshState (runCycles
        [[("t", ⟨TunnelLifecycle.pending, none⟩)],
         [("t", ⟨TunnelLifecycle.active, none⟩)]]) =
      some [("t", ⟨TunnelLifecycle.active, none⟩)] :=
  ⟨(getSshState_availability []).1 rfl,
   (getSshState_availability
      [[("t", ⟨TunnelLifecycle.pending, none⟩)],
       [("t", ⟨TunnelLifecycle.active, none⟩)]]).2 (by simp)⟩

/-- Claim C5: in steady-state mode every reconciliation cycle whose
published snapshot differs from the previous one writes exactly one JSON
document — the serialization of the full new state — followed by one
newline to stdout, and the loop produces exactly one such document pair per
cycle. -/
theorem steadyOutput_perChange (cycles : List SshState) (i : Nat) (s : SshState)
    (hs : cycles[i]? = some s) (_hd : differsFromPrev cycles i = true) :
    (steadyOutputs cycles)[i]? = some [serializeSshState s, eol]
    ∧ (steadyOutputs cycles).length = cycles.length := by
  constructor
  · simp [steadyOutputs, List.getElem?_map, hs, cycleOutput]
  · simp [steadyOutputs]

/-- Witness for C5: two cycles whose second snapshot differs from the
first. -/
theorem steadyOutput_perChange_witness :
    (steadyOutputs [[], [("t", ⟨TunnelLifecycle.active, none⟩)]])[1]? =
      some [serializeSshState [("t", ⟨TunnelLifecycle.active, none⟩)], eol] :=
  (steadyOutput_perChange [[], [("t", ⟨TunnelLifecycle.active, none⟩)]] 1
    [("t", ⟨TunnelLifecycle.active, none⟩)] rfl (by decide)).1

/-- The reconnect loop never requests a process exit, counts one attempt
per disconnect, and keeps its backoff delay bounded by the maximum, from
any starting state satisfying the same bounds. -/
theorem foldl_reconnectStep_invariant (baseDelay maxDelay : Nat)
    (events : List ConnEvent) (s0 : ReconnectState)
    (hb : baseDelay ≤ maxDelay) (h1 : s0.exited = none)
    (h2 : s0.currentDelay ≤ maxDelay) :
    (events.foldl (reconnectStep baseDelay maxDelay) s0).exited = none
    ∧ (events.foldl (reconnectStep baseDelay maxDelay) s0).attempts =
        s0.attempts + events.count ConnEvent.disconnect
    ∧ (events.foldl (reconnectStep baseDelay maxDelay) s0).currentDelay ≤
        maxDelay := by
  induction events generalizing s0 with
  | nil =>
    refine ⟨h1, ?_, h2⟩
    simp
  | cons e es ih =>
    cases e with
    | disconnect =>
      have hexit : (reconnectStep baseDelay maxDelay s0 ConnEvent.disconnect).exited = none := h1
      have hdelay : (reconnectStep baseDelay maxDelay s0 ConnEvent.disconnect).currentDelay ≤
          maxDelay := Nat.min_le_right _ _
      have step := ih (reconnectStep baseDelay maxDelay s0 ConnEvent.disconnect) hexit hdelay
      rw [List.foldl_cons]
      refine ⟨step.1, ?_, step.2.2⟩
      rw [step.2.1]
      have hat : (reconnectStep baseDelay maxDelay s0 ConnEvent.disconnect).attempts =
          s0.attempts + 1 := rfl
      rw [hat]
      simp [List.count_cons]
      omega
    | reconnected =>
      have hexit : (reconnectStep baseDelay maxDelay s0 ConnEvent.reconnected).exited = none := h1
      have hdelay : (reconnectStep baseDelay maxDelay s0 ConnEvent.reconnected).currentDelay ≤
          maxDelay := hb
      have step := ih (reconnectStep baseDelay maxDelay s0 ConnEvent.reconnected) hexit hdelay
      rw [List.foldl_cons]
      refine ⟨step.1, ?_, step.2.2⟩
      rw [step.2.1]
      have hat : (reconnectStep baseDelay maxDelay s0 ConnEvent.reconnected).attempts =
          s0.attempts := rfl
      rw [hat]
      simp [List.count_cons]

/-- Claim C7: in steady-state mode a failed initial ssh connection makes
main exit with code 1, while after a successful initial connection the
reconnect loop handles any sequence of disconnects without ever requesting
a process exit, starting one backoff-bounded reconnection attempt per
disconnect. -/
theorem initialFailureFatal_disconnectRetried (env : ProcEnv)
    (fmt : String → String) (ins : ErrInfo → String)
    (r : ConnectionCheckResult)
    (hc : checkOnlyMode env = false)
    (hok : (sshConnectionConfigFromEnv env).isOk = true) :
    (mainModel env fmt ins r false).2 = ExitOutcome.exited 1
    ∧ (∀ baseDelay maxDelay events, baseDelay ≤ maxDelay →
        (runReconnect baseDelay maxDelay events).exited = none
        ∧ (runReconnect baseDelay maxDelay events).attempts =
            events.count ConnEvent.disconnect
        ∧ (runReconnect baseDelay maxDelay events).currentDelay ≤ maxDelay) := by
  constructor
  · cases hcfg : sshConnectionConfigFromEnv env with
    | error e =>
      rw [hcfg] at hok
      simp [Except.isOk, Except.toBool] at hok
    | ok v => simp [mainModel, hcfg, hc]
  · intro baseDelay maxDelay events hb
    have inv := foldl_reconnectStep_invariant baseDelay maxDelay events
      ⟨true, baseDelay, 0, none⟩ hb rfl hb
    exact ⟨inv.1, by simpa using inv.2.1, inv.2.2⟩

/-- Witness for C7: the steady-state sample environment with a failing
initial connection, and a disconnect-reconnect-disconnect event sequence. -/
theorem initialFailureFatal_disconnectRetried_witness :
    (mainModel sampleEnvSteady id (fun e => e.str) okCheckResult false).2 =
      ExitOutcome.exited 1
    ∧ (runReconnect 100 30000
        [ConnEvent.disconnect, ConnEvent.reconnected, ConnEvent.disconnect]).exited =
      none :=
  ⟨(initialFailureFatal_disconnectRetried sampleEnvSteady id (fun e => e.str)
      okCheckResult rfl rfl).1,
   ((initialFailureFatal_disconnectRetried sampleEnvSteady id (fun e => e.str)
      okCheckResult rfl rfl).2 100 30000
      [ConnEvent.disconnect, ConnEvent.reconnected, ConnEvent.disconnect]
      (by decide)).1⟩

/-- A successfully assembled configuration carries exactly the
environment-derived fields: pinned keys from SSH_SERVER_PUBLIC_KEY,
insecure-skip-verify from the truthiness of INSECURE_SKIP_VERIFY, username
from USER with default foo, and the url it was parsed from. -/
theorem sshConfig_fields (env : ProcEnv) (cfg : SshConnectionConfig)
    (u : String) (h : sshConnectionConfigFromEnv env = Except.ok (cfg, u)) :
    cfg.knownServerPublicKeys = knownServerPublicKeysFromEnv env.sshServerPublicKey
    ∧ cfg.insecureSkipVerify = truthy env.insecureSkipVerify
    ∧ cfg.username = env.user.getD "foo"
    ∧ env.sshUrl = some u := by
  cases hurl : env.sshUrl with
  | none =>
    rw [sshConnectionConfigFromEnv] at h
    simp [requiredEnv, hurl, Bind.bind, Except.bind] at h
  | some u0 =>
    rw [sshConnectionConfigFromEnv] at h
    cases hpe : parseSshUrl u0 with
    | error e =>
      simp [requiredEnv, hurl, hpe, Bind.bind, Except.bind] at h
    | ok p =>
      cases hk : clientPrivateKeyFromEnv env with
      | error e =>
        simp [requiredEnv, hurl, hpe, hk, Bind.bind, Except.bind] at h
      | ok key =>
        simp [requiredEnv, hurl, hpe, hk, Bind.bind, Except.bind] at h
        obtain ⟨hcfg, hu⟩ := h
        subst hu
        rw [← hcfg]
        exact ⟨rfl, rfl, rfl, rfl⟩

/-- Claim C8: the pinned server key set built from the environment has at
most one element — it is exactly the singleton of SSH_SERVER_PUBLIC_KEY
when that variable is a non-empty string and empty otherwise — so pinning
two keys is impossible through this interface. -/
theorem knownServerPublicKeys_atMostOne (env : ProcEnv)
    (cfg : SshConnectionConfig) (u : String)
    (h : sshConnectionConfigFromEnv env = Except.ok (cfg, u)) :
    cfg.knownServerPublicKeys.length ≤ 1
    ∧ (∀ k, env.sshServerPublicKey = some k → k ≠ "" →
        cfg.knownServerPublicKeys = [k])
    ∧ (env.sshServerPublicKey = none ∨ env.sshServerPublicKey = some "" →
        cfg.knownServerPublicKeys = []) := by
  have hf := (sshConfig_fields env cfg u h).1
  rw [hf]
  refine ⟨?_, ?_, ?_⟩
  · cases hv : env.sshServerPublicKey with
    | none => simp [knownServerPublicKeysFromEnv]
    | some s =>
      by_cases hs : s = "" <;> simp [knownServerPublicKeysFromEnv, hs]
  · intro k hk hke
    simp [knownServerPublicKeysFromEnv, hk, hke]
  · intro hk
    rcases hk with hk | hk <;> simp [knownServerPublicKeysFromEnv, hk]

/-- Witness for C8: the sample environment pins exactly its one configured
key. -/
theorem knownServerPublicKeys_atMostOne_witness :
    sampleConfig.knownServerPublicKeys = ["K"] :=
  (knownServerPublicKeys_atMostOne sampleEnvCheck sampleConfig "ssh://h:22"
    rfl).2.1 "K" rfl (by decide)

/-- Claim C9: the insecure-skip-verify flag is true exactly when
INSECURE_SKIP_VERIFY is set to any non-empty string — in particular the
strings false, 0 and no all enable skipping — and only an unset or empty
variable leaves verification on. -/
theorem insecureSkipVerify_truthiness (env : ProcEnv)
    (cfg : SshConnectionConfig) (u : String)
    (h : sshConnectionConfigFromEnv env = Except.ok (cfg, u)) :
    (cfg.insecureSkipVerify = true ↔
      ∃ s, env.insecureSkipVerify = some s ∧ s ≠ "")
    ∧ (env.insecureSkipVerify = some "false" → cfg.insecureSkipVerify = true)
    ∧ (env.insecureSkipVerify = some "0" → cfg.insecureSkipVerify = true)
    ∧ (env.insecureSkipVerify = some "no" → cfg.insecureSkipVerify = true)
    ∧ (env.insecureSkipVerify = none ∨ env.insecureSkipVerify = some "" →
        cfg.insecureSkipVerify = false) := by
  have hf := (sshConfig_fields env cfg u h).2.1
  rw [hf]
  refine ⟨?_, ?_, ?_, ?_, ?_⟩
  · constructor
    · intro ht
      cases hv : env.insecureSkipVerify with
      | none => rw [hv] at ht; simp [truthy] at ht
      | some s =>
        refine ⟨s, rfl, ?_⟩
        rw [hv] at ht
        simpa [truthy] using ht
    · rintro ⟨s, hs, hne⟩
      simp [truthy, hs, hne]
  · intro hv
    simp [truthy, hv]
  · intro hv
    simp [truthy, hv]
  · intro hv
    simp [truthy, hv]
  · intro hv
    rcases hv with hv | hv <;> simp [truthy, hv]

/-- Witness for C9: the sample environment sets INSECURE_SKIP_VERIFY to the
string false, which still enables skipping. -/
theorem insecureSkipVerify_truthiness_witness :
    sampleConfig.insecureSkipVerify = true :=
  (insecureSkipVerify_truthiness sampleEnvCheck sampleConfig "ssh://h:22"
    rfl).2.1 rfl
